import Mathlib

/-!
A verification development for the orcha session orchestrator.

The TypeScript sources are shallowly embedded: each class method that the
verified properties mention is translated into a pure Lean function over an
explicit state record.  JavaScript `Map`s become association lists with the
`Map.set` semantics (updating a present key in place, appending a fresh key),
`Date` timestamps become natural numbers (milliseconds), thrown exceptions
become `Except` results, and event emission is modelled by returning the list
of events emitted by a call, in emission order.
-/

namespace Orcha

/-- The session state enumeration from core/types.ts (`SessionState`). -/
inductive SessionState where
  | initializing
  | idle
  | working
  | waiting
  | done
  | error
deriving DecidableEq, Repr

/-- `SessionStatus` from core/types.ts: `state`, free-text `message`,
`lastActivity` (a `Date`, embedded as milliseconds), optional `needsInput`
prompt and optional numeric `progress`. -/
structure SessionStatus where
  state : SessionState
  message : String
  lastActivity : Nat
  needsInput : Option String
  progress : Option Nat
deriving DecidableEq, Repr

/-- The private `StatusEntry` record of StatusMonitor: the status plus the
`lastFileUpdate` timestamp stamped on every `setStatus`. -/
structure StatusEntry where
  status : SessionStatus
  lastFileUpdate : Nat
deriving DecidableEq, Repr

/-- JavaScript truthiness of an optional string: `undefined` and the empty
string are falsy, every other string is truthy. -/
def truthyStr : Option String → Bool
  | none => false
  | some s => s ≠ ""

/-- Lookup in an association list, the embedding of `Map.get`. -/
def mapFind? {β : Type} (k : String) : List (String × β) → Option β
  | [] => none
  | (k', v) :: rest => if k' = k then some v else mapFind? k rest

/-- Insertion with `Map.set` semantics: a present key is updated in place,
a fresh key is appended at the end (JavaScript `Map` preserves insertion
order). -/
def mapInsert {β : Type} (k : String) (v : β) : List (String × β) → List (String × β)
  | [] => [(k, v)]
  | (k', v') :: rest => if k' = k then (k, v) :: rest else (k', v') :: mapInsert k v rest

/-- Deletion, the embedding of `Map.delete`.  A `Map` holds each key at most
once, so removing every pair with the key is the same as removing the entry. -/
def mapErase {β : Type} (k : String) : List (String × β) → List (String × β)
  | [] => []
  | (k', v') :: rest => if k' = k then mapErase k rest else (k', v') :: mapErase k rest

/-- The events a `StatusMonitor` emits, from core/status-monitor.ts: the
`status-change` event (carrying the new status and the previous state, absent
when the session was untracked), the `needs-input`, `error` and `done`
events. -/
inductive MonitorEvent where
  | statusChange (sessionId : String) (status : SessionStatus)
      (previousState : Option SessionState)
  | needsInput (sessionId : String) (prompt : String)
  | errorEvent (sessionId : String) (message : String)
  | doneEvent (sessionId : String)
deriving DecidableEq, Repr

/-- The mutable state of a `StatusMonitor`: the `statuses` map and the set of
session ids holding a pending idle timer (`idleTimers`; only key membership is
modelled, as the armed callbacks carry no further data). -/
structure Monitor where
  statuses : List (String × StatusEntry)
  idleTimers : List String
deriving DecidableEq, Repr

/-- `resetIdleTimer`: clears any pending timer for the session and arms a new
one, so afterwards the session id is tracked in `idleTimers`. -/
def resetIdleTimer (m : Monitor) (sessionId : String) : Monitor :=
  { m with idleTimers :=
      sessionId :: m.idleTimers.filter (fun s => s ≠ sessionId) }

/-- `StatusMonitor.getStatus`: the status stored for the session, if any. -/
def getStatus (m : Monitor) (sessionId : String) : Option SessionStatus :=
  (mapFind? sessionId m.statuses).map (·.status)

/-- `StatusMonitor.setStatus` (private): stores the entry with
`lastFileUpdate = now`, resets the idle timer, and emits a `status-change`
event exactly when the state differs from the previously recorded one — with
the `needs-input`, `error` and `done` events raised inside that branch for
the corresponding new states (`needs-input` needs a truthy `needsInput`). -/
def setStatus (m : Monitor) (sessionId : String) (status : SessionStatus)
    (now : Nat) : Monitor × List MonitorEvent :=
  let previousState := (mapFind? sessionId m.statuses).map (·.status.state)
  let m' : Monitor := { m with
    statuses := mapInsert sessionId ⟨status, now⟩ m.statuses }
  let m'' := resetIdleTimer m' sessionId
  let events : List MonitorEvent :=
    if previousState ≠ some status.state then
      [MonitorEvent.statusChange sessionId status previousState]
        ++ (if status.state = SessionState.waiting ∧ truthyStr status.needsInput then
              [MonitorEvent.needsInput sessionId (status.needsInput.getD "")] else [])
        ++ (if status.state = SessionState.error then
              [MonitorEvent.errorEvent sessionId status.message] else [])
        ++ (if status.state = SessionState.done then
              [MonitorEvent.doneEvent sessionId] else [])
    else []
  (m'', events)

/-- The `Partial SessionStatus` argument of `updateStatus`: each field may be
absent (`undefined`). -/
structure PartialStatus where
  state : Option SessionState
  message : Option String
  needsInput : Option String
  progress : Option Nat
deriving DecidableEq, Repr

/-- `StatusMonitor.updateStatus`: builds the new status — `state` and
`message` fall back to the current value and then to `idle` / the empty
string, `lastActivity` is stamped with the current time, while `needsInput`
and `progress` are taken from the partial as given — and applies it through
`setStatus`. -/
def updateStatus (m : Monitor) (sessionId : String) (p : PartialStatus)
    (now : Nat) : Monitor × List MonitorEvent :=
  let current := (mapFind? sessionId m.statuses).map (·.status)
  let newStatus : SessionStatus := {
    state := p.state.getD ((current.map (·.state)).getD SessionState.idle),
    message := p.message.getD ((current.map (·.message)).getD ""),
    lastActivity := now,
    needsInput := p.needsInput,
    progress := p.progress }
  setStatus m sessionId newStatus now

/-- `StatusMonitor.registerSession`: a no-op when the session is already
tracked; otherwise stores an `initializing` status, emits a `status-change`
event without a previous state, and arms the idle timer. -/
def registerSession (m : Monitor) (sessionId : String) (now : Nat) :
    Monitor × List MonitorEvent :=
  if (mapFind? sessionId m.statuses).isSome then (m, [])
  else
    let status : SessionStatus := {
      state := SessionState.initializing,
      message := "Starting up...",
      lastActivity := now,
      needsInput := none,
      progress := none }
    let m' : Monitor := { m with
      statuses := mapInsert sessionId ⟨status, now⟩ m.statuses }
    (resetIdleTimer m' sessionId,
      [MonitorEvent.statusChange sessionId status none])

/-- `StatusMonitor.unregisterSession`: clears the idle timer and deletes the
status entry (the status-file removal has no bearing on the in-memory
state). -/
def unregisterSession (m : Monitor) (sessionId : String) : Monitor :=
  { statuses := mapErase sessionId m.statuses,
    idleTimers := m.idleTimers.filter (fun s => s ≠ sessionId) }

/-- The parsed content of a per-session self-report file
(`StatusFileContent` from core/types.ts), with the ISO timestamp embedded as
milliseconds. -/
structure StatusFileContent where
  agentId : String
  state : SessionState
  message : String
  timestamp : Nat
  needsInputPrompt : Option String
  progress : Option Nat
deriving DecidableEq, Repr

/-- `StatusMonitor.handleFileChange` on a successfully parsed status file:
builds the status from the file fields (`state`, `message`, the file
timestamp as `lastActivity`, `needsInputPrompt`, `progress`) and applies it
through `setStatus`.  A parse failure is ignored and never reaches
`setStatus`. -/
def handleFileChange (m : Monitor) (sessionId : String)
    (data : StatusFileContent) (now : Nat) : Monitor × List MonitorEvent :=
  let status : SessionStatus := {
    state := data.state,
    message := data.message,
    lastActivity := data.timestamp,
    needsInput := data.needsInputPrompt,
    progress := data.progress }
  setStatus m sessionId status now

/-- `StatusMonitor.handleIdleTimeout`: a no-op for an untracked session;
only a session in `working` is force-transitioned to `idle` with the
synthetic message, explicitly keeping its `lastActivity`; any other state is
left untouched. -/
def handleIdleTimeout (m : Monitor) (sessionId : String) (now : Nat) :
    Monitor × List MonitorEvent :=
  match mapFind? sessionId m.statuses with
  | none => (m, [])
  | some entry =>
    if entry.status.state = SessionState.working then
      let newStatus : SessionStatus := { entry.status with
        state := SessionState.idle,
        message := "Idle (no recent activity)",
        lastActivity := entry.status.lastActivity }
      setStatus m sessionId newStatus now
    else (m, [])

/-- `StatusMonitor.checkIdleTimeouts` (the periodic sweep): iterates over the
tracked sessions and calls `handleIdleTimeout` for each whose current entry
is in `working` with `now - lastActivity > idleTimeout`. -/
def checkIdleTimeoutsGo (now idleTimeout : Nat) :
    List String → Monitor × List MonitorEvent → Monitor × List MonitorEvent
  | [], acc => acc
  | sid :: rest, (m, evs) =>
    match mapFind? sid m.statuses with
    | none => checkIdleTimeoutsGo now idleTimeout rest (m, evs)
    | some entry =>
      if entry.status.state = SessionState.working ∧
          now - entry.status.lastActivity > idleTimeout then
        let r := handleIdleTimeout m sid now
        checkIdleTimeoutsGo now idleTimeout rest (r.1, evs ++ r.2)
      else checkIdleTimeoutsGo now idleTimeout rest (m, evs)

/-- The sweep over every tracked session id, in map order. -/
def checkIdleTimeouts (m : Monitor) (now idleTimeout : Nat) :
    Monitor × List MonitorEvent :=
  checkIdleTimeoutsGo now idleTimeout (m.statuses.map Prod.fst) (m, [])

/-- The number of `status-change` events in an emission list. -/
def countStatusChange (evs : List MonitorEvent) : Nat :=
  (evs.filter fun ev => match ev with
    | MonitorEvent.statusChange _ _ _ => true
    | _ => false).length

/-- The number of `needs-input` events in an emission list. -/
def countNeedsInputEvents (evs : List MonitorEvent) : Nat :=
  (evs.filter fun ev => match ev with
    | MonitorEvent.needsInput _ _ => true
    | _ => false).length

/-- The number of `error` events in an emission list. -/
def countErrorEvents (evs : List MonitorEvent) : Nat :=
  (evs.filter fun ev => match ev with
    | MonitorEvent.errorEvent _ _ => true
    | _ => false).length

/-- The number of `done` events in an emission list. -/
def countDoneEvents (evs : List MonitorEvent) : Nat :=
  (evs.filter fun ev => match ev with
    | MonitorEvent.doneEvent _ => true
    | _ => false).length

/-- The last path segment, the embedding of node `path.basename` for the
normalised, slash-separated paths the orchestrator passes around: the
characters after the last slash. -/
def basename (p : String) : String :=
  String.mk ((p.data.reverse.takeWhile (fun c => c ≠ '/')).reverse)

/-- Path concatenation, the embedding of `path.join` for the already
normalised segments used here. -/
def joinPath (a b : String) : String := a ++ "/" ++ b

/-- The configuration of a `WorktreeManager`: its base directory
(`~/.orcha/worktrees` by default) and the repository it serves. -/
structure WorktreeManager where
  baseDir : String
  repoPath : String
deriving DecidableEq, Repr

/-- `WorktreeManager.getRepoWorktreeDir`: the per-repository directory,
keyed by the repository base name. -/
def getRepoWorktreeDir (w : WorktreeManager) : String :=
  joinPath w.baseDir (basename w.repoPath)

/-- `WorktreeManager.getWorktreePath`: the isolated path for a session. -/
def getWorktreePath (w : WorktreeManager) (sessionId : String) : String :=
  joinPath (getRepoWorktreeDir w) sessionId

/-- The slice of git and filesystem state `WorktreeManager.create` touches:
the names `git branch` reports in `all` (local branches plus
`remotes/origin/...` entries) and the session directories existing under the
repository worktree directory. -/
structure GitState where
  branchesAll : List String
  worktreeDirs : List String
deriving DecidableEq, Repr

/-- Which git command `create` ended up issuing. -/
inductive GitAction where
  | checkoutExisting
  | branchCreatedFromHead
deriving DecidableEq, Repr

/-- The failures `WorktreeManager.create` can raise. -/
inductive WtError where
  | worktreeExists (path : String)
deriving DecidableEq, Repr

/-- `WorktreeManager.create`: fails when a directory already exists at the
session worktree path; otherwise checks the branch list — the branch counts
as existing when `branch().all` contains it directly or as
`remotes/origin/<branch>` — and either checks the existing branch out into
the new path or creates the branch from the current head (`worktree add -b`),
returning the new git state, the worktree path, and the action taken. -/
def worktreeCreate (w : WorktreeManager) (g : GitState) (sessionId branch : String) :
    Except WtError (GitState × String × GitAction) :=
  let worktreePath := getWorktreePath w sessionId
  if sessionId ∈ g.worktreeDirs then
    Except.error (WtError.worktreeExists worktreePath)
  else
    let branchExists := branch ∈ g.branchesAll ∨
      ("remotes/origin/" ++ branch) ∈ g.branchesAll
    if branchExists then
      Except.ok ({ g with worktreeDirs := g.worktreeDirs ++ [sessionId] },
        worktreePath, GitAction.checkoutExisting)
    else
      Except.ok ({ branchesAll := g.branchesAll ++ [branch],
                   worktreeDirs := g.worktreeDirs ++ [sessionId] },
        worktreePath, GitAction.branchCreatedFromHead)

/-- A `readdir` entry with its `isDirectory` flag, as `cleanup` sees the
repository worktree directory. -/
structure DirEntry where
  name : String
  isDir : Bool
deriving DecidableEq, Repr

/-- `WorktreeManager.cleanup`: walks the entries of the repository worktree
directory; non-directories and entries matching an active session id are
skipped; every other directory is removed — through a clean
`git worktree remove`, or, when the removal throws (its session id is in
`failIds`), through a forced filesystem delete followed by a
`git worktree prune` — and its session id recorded.  Returns, in entry
order, the removed ids, the entries still present, and the number of prune
invocations the fallback path issued. -/
def worktreeCleanup (failIds active : List String) :
    List DirEntry → List String × List DirEntry × Nat
  | [] => ([], [], 0)
  | e :: rest =>
    let r := worktreeCleanup failIds active rest
    if ¬ e.isDir then (r.1, e :: r.2.1, r.2.2)
    else if e.name ∈ active then (r.1, e :: r.2.1, r.2.2)
    else (e.name :: r.1, r.2.1, (if e.name ∈ failIds then 1 else 0) + r.2.2)

/-- `InstanceInfo` from instance-registry.ts: the derived id, the absolute
repository path, the tmux session name (set to the instance id), the
registering pid, the start time and the session count. -/
structure InstanceInfo where
  instanceId : String
  repoPath : String
  tmuxSession : String
  pid : Nat
  startedAt : Nat
  sessionCount : Nat
deriving DecidableEq, Repr

/-- Modelled from the spec: `generateInstanceId` lives in
core/instance-id.ts, which is not among the sources; the spec says the
instance id is derived deterministically from the repository path, and the
CLI uses it as the per-repository tmux session name, so it is modelled as a
fixed prefix plus the repository base name. -/
def generateInstanceId (repoPath : String) : String :=
  "orcha-" ++ basename repoPath

/-- Modelled from the spec: a deterministic content hash of the path
(core/instance-id.ts is not among the sources), used only as an opaque
disambiguating suffix. -/
def pathContentHash (s : String) : Nat :=
  s.foldl (fun h c => (h * 31 + c.toNat) % 1000000007) 5381

/-- Modelled from the spec: `generateInstanceIdWithHash` appends a content
hash of the path to the base id to disambiguate colliding base ids. -/
def generateInstanceIdWithHash (repoPath : String) : String :=
  generateInstanceId repoPath ++ "-" ++ toString (pathContentHash repoPath)

/-- `registerInstance`: derives the instance id from the repository path;
when an existing registry entry under that id maps to a different absolute
path, switches to the hash-suffixed id; then stores the new `InstanceInfo`
under the chosen id (repository paths are modelled as already absolute, so
`resolve` is the identity). -/
def registerInstance (reg : List (String × InstanceInfo)) (repoPath : String)
    (sessionCount pid now : Nat) :
    List (String × InstanceInfo) × InstanceInfo :=
  let baseId := generateInstanceId repoPath
  let instanceId :=
    match mapFind? baseId reg with
    | some existing =>
      if existing.repoPath ≠ repoPath then generateInstanceIdWithHash repoPath
      else baseId
    | none => baseId
  let inst : InstanceInfo := {
    instanceId := instanceId,
    repoPath := repoPath,
    tmuxSession := instanceId,
    pid := pid,
    startedAt := now,
    sessionCount := sessionCount }
  (mapInsert instanceId inst reg, inst)

/-- The registry entry of a tracked process
(process-registry.ts `ProcessEntry`): pid, owning session id, command line,
start time, exit code and exited flag. -/
structure ProcessEntry where
  pid : Nat
  sessionId : String
  command : String
  startedAt : Nat
  exitCode : Option Int
  exited : Bool
deriving DecidableEq, Repr

/-- The possible outcomes of the `tree-kill` callback for one call: no error,
or an error (typically because the process tree is already dead). -/
inductive SignalOutcome where
  | delivered
  | failed (reason : String)
deriving DecidableEq, Repr

/-- `ProcessRegistry.kill`: resolves `false` when no entry exists for the
session or its process has exited; otherwise issues `tree-kill` on the
tracked pid and resolves `true` on success and `false` when the signal
errors (the process may already be dead) — the promise never rejects, which
the `Except` result type makes explicit. -/
def processKill (procs : List (String × ProcessEntry)) (sessionId : String)
    (outcome : SignalOutcome) : Except String Bool :=
  match mapFind? sessionId procs with
  | none => Except.ok false
  | some entry =>
    if entry.exited then Except.ok false
    else
      match outcome with
      | SignalOutcome.delivered => Except.ok true
      | SignalOutcome.failed _ => Except.ok false

/-- The worker kinds (`SessionMode` in core/types.ts). -/
inductive SessionMode where
  | claude
  | gemini
  | codex
  | shell
deriving DecidableEq, Repr

/-- The launch command for each mode (`MODE_COMMANDS`); the shell mode uses
the `SHELL` environment variable and falls back to `bash`. -/
def modeCommand (shellEnv : Option String) : SessionMode → String
  | SessionMode.claude => "claude"
  | SessionMode.gemini => "gemini"
  | SessionMode.codex => "codex"
  | SessionMode.shell => shellEnv.getD "bash"

/-- The display name of a mode, as interpolated into status messages. -/
def modeName : SessionMode → String
  | SessionMode.claude => "claude"
  | SessionMode.gemini => "gemini"
  | SessionMode.codex => "codex"
  | SessionMode.shell => "shell"

/-- A `Session` from core/types.ts. -/
structure Session where
  id : String
  displayId : Nat
  branch : Option String
  worktreePath : Option String
  status : SessionStatus
  mode : SessionMode
  pid : Option Nat
  createdAt : Nat
  repoPath : String
deriving DecidableEq, Repr

/-- `SessionConfig` from core/types.ts. -/
structure SessionConfig where
  branch : Option String
  mode : Option SessionMode
  workingDirectory : String
  repoPath : String
deriving DecidableEq, Repr

/-- The errors session creation can surface.  The sources throw plain
`Error`s from worktree creation (directory exists, git failures) and from
`ProcessRegistry.spawn` (active process for the id, missing pid).  The spec
names a `SessionCreationError` wrapper; no such class exists anywhere in the
sources, so the constructor is included here only to make the claimed
wrapping expressible — the theorems show the code never produces it. -/
inductive OrchaError where
  | worktreeAlreadyExists (path : String)
  | gitError (message : String)
  | alreadyActive (sessionId : String)
  | spawnFailed (sessionId : String)
  | sessionCreationError (cause : OrchaError)
deriving DecidableEq, Repr

/-- Whether an error is the spec's claimed `SessionCreationError` wrapper. -/
def isSessionCreationError : OrchaError → Bool
  | OrchaError.sessionCreationError _ => true
  | _ => false

/-- The environment of one `createSession` call: the outcome of the git
worktree creation, whether `spawn` produced a process with a pid, the pid,
the clock, and the `SHELL` variable. -/
structure CreateEnv where
  worktreeOutcome : Except OrchaError Unit
  spawnOk : Bool
  pid : Nat
  now : Nat
  shellEnv : Option String
deriving Repr

/-- The state a `SessionManager` owns together with its composed parts: the
session map, the display-id counter, the worktree manager configuration, the
session worktree directories existing on disk, the process registry map and
the status monitor. -/
structure SMState where
  sessions : List (String × Session)
  nextDisplayId : Nat
  worktrees : WorktreeManager
  worktreeDirs : List String
  procs : List (String × ProcessEntry)
  monitor : Monitor
deriving Repr

/-- The effect of `processes.kill(id)` on the registry during destruction:
`tree-kill` terminates the live process tree (the exit listener then records
the exited flag, collapsed here into the same step); an absent or already
exited entry is left alone. -/
def killProcessTree (procs : List (String × ProcessEntry)) (id : String) :
    List (String × ProcessEntry) :=
  match mapFind? id procs with
  | none => procs
  | some e =>
    if e.exited then procs
    else mapInsert id { e with exited := true } procs

/-- `SessionManager.destroySession`: a no-op for an unknown id; otherwise
kills the process, removes the worktree when the session has one (removal
failures are swallowed), unregisters the session from the status monitor and
deletes it from the session map. -/
def destroySession (s : SMState) (id : String) : SMState :=
  match mapFind? id s.sessions with
  | none => s
  | some sess =>
    { s with
      sessions := mapErase id s.sessions,
      procs := killProcessTree s.procs id,
      worktreeDirs :=
        if sess.worktreePath.isSome then
          s.worktreeDirs.filter (fun d => d ≠ id)
        else s.worktreeDirs,
      monitor := unregisterSession s.monitor id }

/-- The `status-change` forwarding handler of `setupEventForwarding`: each
change event synchronously copies the new status onto the matching session
object. -/
def forwardStatusEvents (sessions : List (String × Session)) :
    List MonitorEvent → List (String × Session)
  | [] => sessions
  | MonitorEvent.statusChange sid status _ :: rest =>
    forwardStatusEvents
      (match mapFind? sid sessions with
        | some sess => mapInsert sid { sess with status := status } sessions
        | none => sessions) rest
  | _ :: rest => forwardStatusEvents sessions rest

/-- The spawn-and-finish tail of `createSession`: `ProcessRegistry.spawn`
throws when an active process already exists for the id or when the spawn
yields no pid — both caught by the enclosing try and answered by
`destroySession` plus a rethrow of the raw error — and on success records
the entry, stores the pid on the session, updates the status to `idle`
with message `Ready` and returns the session. -/
def createSpawn (s : SMState) (session : Session) (env : CreateEnv)
    (id : String) : SMState × Except OrchaError Session :=
  if (mapFind? id s.procs).any (fun e => ¬ e.exited) then
    (destroySession s id, Except.error (OrchaError.alreadyActive id))
  else if ¬ env.spawnOk then
    (destroySession s id, Except.error (OrchaError.spawnFailed id))
  else
    let entry : ProcessEntry := {
      pid := env.pid, sessionId := id,
      command := modeCommand env.shellEnv session.mode,
      startedAt := env.now, exitCode := none, exited := false }
    let session1 : Session := { session with
      pid := some env.pid,
      status := { session.status with
        message := "Starting " ++ modeName session.mode ++ "..." } }
    let s1 : SMState := { s with
      procs := mapInsert id entry s.procs,
      sessions := mapInsert id session1 s.sessions }
    let upd := updateStatus s1.monitor id
      { state := some SessionState.idle, message := some "Ready",
        needsInput := none, progress := none } env.now
    let sessions2 := forwardStatusEvents s1.sessions upd.2
    let s2 : SMState := { s1 with monitor := upd.1, sessions := sessions2 }
    (s2, Except.ok ((mapFind? id sessions2).getD session1))

/-- `SessionManager.createSession`: allocates the id and next display id,
registers the session object as `initializing` in the session map and the
status monitor, then inside the try block optionally creates the worktree
for the branch and spawns the worker; any failure mid-sequence is caught,
answered with `destroySession` on the state reached so far, and the raw
underlying error is rethrown unchanged. -/
def createSession (s : SMState) (cfg : SessionConfig) (env : CreateEnv)
    (id : String) : SMState × Except OrchaError Session :=
  let session : Session := {
    id := id, displayId := s.nextDisplayId, branch := cfg.branch,
    worktreePath := none,
    status := { state := SessionState.initializing,
                message := "Setting up session...",
                lastActivity := env.now, needsInput := none, progress := none },
    mode := cfg.mode.getD SessionMode.claude,
    pid := none, createdAt := env.now, repoPath := cfg.repoPath }
  let s2 : SMState := { s with
    sessions := mapInsert id session s.sessions,
    nextDisplayId := s.nextDisplayId + 1,
    monitor := (registerSession s.monitor id env.now).1 }
  match cfg.branch with
  | some _ =>
    match env.worktreeOutcome with
    | Except.error e => (destroySession s2 id, Except.error e)
    | Except.ok _ =>
      let session1 : Session := { session with
        worktreePath := some (getWorktreePath s.worktrees id),
        status := { session.status with message := "Creating worktree..." } }
      let s3 : SMState := { s2 with
        sessions := mapInsert id session1 s2.sessions,
        worktreeDirs := s2.worktreeDirs ++ [id] }
      createSpawn s3 session1 env id
  | none => createSpawn s2 session env id

/-- A pane-content heuristic result from
`TmuxRenderer.detectClaudeStatus`: the classified state and a message
(`null` from the detector is modelled as `none` at the call sites). -/
structure DetectedStatus where
  state : SessionState
  message : String
deriving DecidableEq, Repr

/-- The in-place override both CLI fallback paths perform on a detection:
`status.state = detected.state`, `status.message = detected.message`,
`status.lastActivity = new Date()`. -/
def overrideFromDetection (d : DetectedStatus) (st : SessionStatus)
    (now : Nat) : SessionStatus :=
  { st with state := d.state, message := d.message, lastActivity := now }

/-- The one-shot `orcha status` fallback loop: walks the statuses with a
running pane index and consults the heuristic only when the recorded state
is `idle` or `initializing`, applying a returned non-`idle` detection. -/
def statusFallbackGo (detect : Nat → Option DetectedStatus) (now : Nat) :
    Nat → List (String × SessionStatus) → List (String × SessionStatus)
  | _, [] => []
  | i, (sid, st) :: rest =>
    let st' :=
      if st.state = SessionState.idle ∨ st.state = SessionState.initializing then
        match detect i with
        | some d =>
          if d.state ≠ SessionState.idle then overrideFromDetection d st now
          else st
        | none => st
      else st
    (sid, st') :: statusFallbackGo detect now (i + 1) rest

/-- The one-shot fallback pass starting at pane index 0. -/
def statusFallback (detect : Nat → Option DetectedStatus) (now : Nat)
    (statuses : List (String × SessionStatus)) :
    List (String × SessionStatus) :=
  statusFallbackGo detect now 0 statuses

/-- The watch-mode `refreshDisplay` loop: walks the statuses with a running
pane index and applies any returned detection unconditionally, with no check
of the recorded state. -/
def watchRefreshGo (detect : Nat → Option DetectedStatus) (now : Nat) :
    Nat → List (String × SessionStatus) → List (String × SessionStatus)
  | _, [] => []
  | i, (sid, st) :: rest =>
    let st' :=
      match detect i with
      | some d => overrideFromDetection d st now
      | none => st
    (sid, st') :: watchRefreshGo detect now (i + 1) rest

/-- The watch-mode refresh pass starting at pane index 0. -/
def watchRefresh (detect : Nat → Option DetectedStatus) (now : Nat)
    (statuses : List (String × SessionStatus)) :
    List (String × SessionStatus) :=
  watchRefreshGo detect now 0 statuses

theorem mapFind?_insert {β : Type} (k k' : String) (v : β) (l : List (String × β)) :
    mapFind? k' (mapInsert k v l) = if k = k' then some v else mapFind? k' l := by
  induction l with
  | nil => by_cases h : k = k' <;> simp [mapInsert, mapFind?, h]
  | cons hd tl ih =>
    obtain ⟨k₀, v₀⟩ := hd
    by_cases h₀ : k₀ = k
    · subst h₀
      by_cases h : k₀ = k' <;> simp [mapInsert, mapFind?, h]
    · simp only [mapInsert, if_neg h₀]
      by_cases h : k₀ = k'
      · have hne : ¬ k = k' := fun hk => h₀ (h.trans hk.symm)
        simp [mapFind?, h, hne]
      · simp [mapFind?, h, ih]

theorem mapFind?_insert_self {β : Type} (k : String) (v : β) (l : List (String × β)) :
    mapFind? k (mapInsert k v l) = some v := by
  simp [mapFind?_insert]

theorem mapFind?_insert_ne {β : Type} {k k' : String} (v : β) (l : List (String × β))
    (h : k ≠ k') : mapFind? k' (mapInsert k v l) = mapFind? k' l := by
  simp [mapFind?_insert, h]

theorem mapFind?_erase_self {β : Type} (k : String) (l : List (String × β)) :
    mapFind? k (mapErase k l) = none := by
  induction l with
  | nil => rfl
  | cons hd tl ih =>
    obtain ⟨k₀, v₀⟩ := hd
    by_cases h₀ : k₀ = k
    · simpa [mapErase, h₀] using ih
    · simpa [mapErase, h₀, mapFind?] using ih

theorem mapFind?_erase_ne {β : Type} {k k' : String} (l : List (String × β))
    (h : k ≠ k') : mapFind? k' (mapErase k l) = mapFind? k' l := by
  induction l with
  | nil => rfl
  | cons hd tl ih =>
    obtain ⟨k₀, v₀⟩ := hd
    by_cases h₀ : k₀ = k
    · simp [mapErase, h₀, mapFind?, h, ih]
    · by_cases h₁ : k₀ = k'
      · simp [mapErase, h₀, mapFind?, h₁, Ne.symm h]
      · simp [mapErase, h₀, mapFind?, h₁, ih]

theorem resetIdleTimer_statuses (m : Monitor) (sid : String) :
    (resetIdleTimer m sid).statuses = m.statuses := rfl

theorem mapFind?_mem_keys {β : Type} {k : String} {v : β} :
    ∀ {l : List (String × β)}, mapFind? k l = some v → k ∈ l.map Prod.fst
  | [], h => by simp [mapFind?] at h
  | (k₀, v₀) :: tl, h => by
    by_cases h₀ : k₀ = k
    · simp [h₀]
    · simp only [mapFind?, if_neg h₀] at h
      simp [mapFind?_mem_keys h]

theorem setStatus_statuses (m : Monitor) (sid : String) (st : SessionStatus)
    (now : Nat) :
    (setStatus m sid st now).1.statuses = mapInsert sid ⟨st, now⟩ m.statuses := rfl

theorem handleIdleTimeout_find_ne (m : Monitor) (sid' : String) (now : Nat)
    {sid : String} (h : sid' ≠ sid) :
    mapFind? sid (handleIdleTimeout m sid' now).1.statuses =
      mapFind? sid m.statuses := by
  unfold handleIdleTimeout
  cases hf : mapFind? sid' m.statuses with
  | none => rfl
  | some entry =>
    by_cases hw : entry.status.state = SessionState.working
    · simp [hw, setStatus, resetIdleTimer_statuses, mapFind?_insert_ne _ _ h]
    · simp [hw]

theorem handleIdleTimeout_nonworking {m : Monitor} {sid : String} {now : Nat}
    {e : StatusEntry} (h : mapFind? sid m.statuses = some e)
    (hw : e.status.state ≠ SessionState.working) :
    handleIdleTimeout m sid now = (m, []) := by
  unfold handleIdleTimeout
  rw [h]
  simp [hw]

theorem checkIdleTimeoutsGo_preserves (now T : Nat) {sid : String}
    {e : StatusEntry} (hw : e.status.state ≠ SessionState.working) :
    ∀ (l : List String) (m : Monitor) (evs : List MonitorEvent),
      mapFind? sid m.statuses = some e →
      mapFind? sid (checkIdleTimeoutsGo now T l (m, evs)).1.statuses = some e
  | [], m, evs, h => h
  | sid' :: rest, m, evs, h => by
    unfold checkIdleTimeoutsGo
    cases hf : mapFind? sid' m.statuses with
    | none => exact checkIdleTimeoutsGo_preserves now T hw rest m evs h
    | some entry =>
      by_cases hg : entry.status.state = SessionState.working ∧
          now - entry.status.lastActivity > T
      · simp only [hg, if_pos, and_true]
        have hne : sid' ≠ sid := by
          intro hEq
          apply hw
          have h2 : mapFind? sid m.statuses = some entry := hEq ▸ hf
          rw [h] at h2
          injection h2 with h3
          rw [h3]
          exact hg.1
        apply checkIdleTimeoutsGo_preserves now T hw rest
        rw [handleIdleTimeout_find_ne m sid' now hne]
        exact h
      · simp only [hg, if_neg, if_false]
        exact checkIdleTimeoutsGo_preserves now T hw rest m evs h

theorem checkIdleTimeoutsGo_fires (now T : Nat) {sid : String} {e : StatusEntry}
    (hw : e.status.state = SessionState.working)
    (ht : now - e.status.lastActivity > T) :
    ∀ (l : List String) (m : Monitor) (evs : List MonitorEvent),
      sid ∈ l →
      mapFind? sid m.statuses = some e →
      mapFind? sid (checkIdleTimeoutsGo now T l (m, evs)).1.statuses =
        some ⟨{ e.status with
                  state := SessionState.idle,
                  message := "Idle (no recent activity)" }, now⟩
  | [], _, _, hmem, _ => absurd hmem (List.not_mem_nil sid)
  | sid' :: rest, m, evs, hmem, h => by
    unfold checkIdleTimeoutsGo
    by_cases hEq : sid' = sid
    · subst hEq
      rw [h]
      simp only [hw, ht, and_self, if_pos, true_and]
      have hres : mapFind? sid' (handleIdleTimeout m sid' now).1.statuses =
          some ⟨{ e.status with
                    state := SessionState.idle,
                    message := "Idle (no recent activity)" }, now⟩ := by
        unfold handleIdleTimeout
        rw [h]
        simp [hw, setStatus, resetIdleTimer_statuses, mapFind?_insert_self]
      exact checkIdleTimeoutsGo_preserves now T (by simp) rest _ _ hres
    · have hmem' : sid ∈ rest := by
        cases hmem with
        | head => exact absurd rfl hEq
        | tail _ hm => exact hm
      cases hf : mapFind? sid' m.statuses with
      | none => exact checkIdleTimeoutsGo_fires now T hw ht rest m evs hmem' h
      | some entry =>
        by_cases hg : entry.status.state = SessionState.working ∧
            now - entry.status.lastActivity > T
        · simp only [hg, and_true, if_pos]
          apply checkIdleTimeoutsGo_fires now T hw ht rest _ _ hmem'
          rw [handleIdleTimeout_find_ne m sid' now hEq]
          exact h
        · simp only [hg, if_neg, if_false]
          exact checkIdleTimeoutsGo_fires now T hw ht rest m evs hmem' h

/-- C2.  When the idle timeout fires for a tracked session (per-session timer
callback `handleIdleTimeout`, also the action taken by the periodic sweep
`checkIdleTimeouts`): a session in `working` is transitioned to `idle` with
the synthetic message, its `lastActivity` (and every other field) unchanged
from its last real update; a session in any other state — in particular
`done` or `error` — is left completely untouched by the timer callback, and
its recorded status survives a whole periodic sweep unchanged.  Moreover a
`working` session whose silence exceeds the timeout is transitioned by the
sweep itself. -/
theorem idle_timeout_correction (m : Monitor) (sid : String) (now T : Nat)
    (e : StatusEntry) (h : mapFind? sid m.statuses = some e) :
    (e.status.state = SessionState.working →
      getStatus (handleIdleTimeout m sid now).1 sid =
        some { e.status with
                 state := SessionState.idle,
                 message := "Idle (no recent activity)" }) ∧
    (e.status.state ≠ SessionState.working →
      handleIdleTimeout m sid now = (m, [])) ∧
    (e.status.state ≠ SessionState.working →
      getStatus (checkIdleTimeouts m now T).1 sid = some e.status) ∧
    (e.status.state = SessionState.working → now - e.status.lastActivity > T →
      getStatus (checkIdleTimeouts m now T).1 sid =
        some { e.status with
                 state := SessionState.idle,
                 message := "Idle (no recent activity)" }) := by
  refine ⟨fun hw => ?_, fun hw => handleIdleTimeout_nonworking h hw,
    fun hw => ?_, fun hw ht => ?_⟩
  · unfold handleIdleTimeout
    rw [h]
    simp [hw, setStatus, getStatus, resetIdleTimer_statuses, mapFind?_insert_self]
  · have hgo := checkIdleTimeoutsGo_preserves now T hw (m.statuses.map Prod.fst) m [] h
    unfold checkIdleTimeouts getStatus
    rw [hgo]
    rfl
  · have hmem : sid ∈ m.statuses.map Prod.fst := mapFind?_mem_keys h
    have hgo := checkIdleTimeoutsGo_fires now T hw ht (m.statuses.map Prod.fst) m [] hmem h
    unfold checkIdleTimeouts getStatus
    rw [hgo]
    rfl

/-- Witness for `idle_timeout_correction` at a concrete monitor holding one
`working` session and one `done` session. -/
theorem idle_timeout_correction_witness :
    getStatus
      (handleIdleTimeout
        { statuses := [("s1",
            ⟨{ state := SessionState.working, message := "compiling",
               lastActivity := 50, needsInput := none, progress := none }, 50⟩)],
          idleTimers := ["s1"] } "s1" 100).1 "s1" =
      some { state := SessionState.idle,
             message := "Idle (no recent activity)",
             lastActivity := 50, needsInput := none, progress := none } ∧
    handleIdleTimeout
      { statuses := [("s2",
          ⟨{ state := SessionState.done, message := "finished",
             lastActivity := 10, needsInput := none, progress := none }, 10⟩)],
        idleTimers := ["s2"] } "s2" 100 =
      ({ statuses := [("s2",
          ⟨{ state := SessionState.done, message := "finished",
             lastActivity := 10, needsInput := none, progress := none }, 10⟩)],
         idleTimers := ["s2"] }, []) := by
  constructor
  · exact (idle_timeout_correction
      { statuses := [("s1",
          ⟨{ state := SessionState.working, message := "compiling",
             lastActivity := 50, needsInput := none, progress := none }, 50⟩)],
        idleTimers := ["s1"] } "s1" 100 30
      ⟨{ state := SessionState.working, message := "compiling",
         lastActivity := 50, needsInput := none, progress := none }, 50⟩
      (by decide)).1 rfl
  · exact (idle_timeout_correction
      { statuses := [("s2",
          ⟨{ state := SessionState.done, message := "finished",
             lastActivity := 10, needsInput := none, progress := none }, 10⟩)],
        idleTimers := ["s2"] } "s2" 100 30
      ⟨{ state := SessionState.done, message := "finished",
         lastActivity := 10, needsInput := none, progress := none }, 10⟩
      (by decide)).2.1 (by decide)

/-- C4 counterexample.  The claim asserts that every applied update whose new
state is `waiting` with a non-empty `needsInput` fires a needs-input event.
On the code the `needs-input` emission sits inside the state-changed branch
of `setStatus`: updating a session that is already `waiting` with a fresh
non-empty prompt fires no event at all. -/
theorem needs_input_requires_transition_cex :
    (setStatus
      { statuses := [("s1",
          ⟨{ state := SessionState.waiting, message := "Delete files?",
             lastActivity := 1, needsInput := some "Delete files? (y/n)",
             progress := none }, 1⟩)],
        idleTimers := ["s1"] }
      "s1"
      { state := SessionState.waiting, message := "Proceed?",
        lastActivity := 2, needsInput := some "Proceed? (y/n)",
        progress := none } 2).2 = [] := by decide

theorem setStatus_events (m : Monitor) (sid : String) (st : SessionStatus)
    (now : Nat) :
    (setStatus m sid st now).2 =
      if (mapFind? sid m.statuses).map (·.status.state) ≠ some st.state then
        [MonitorEvent.statusChange sid st
          ((mapFind? sid m.statuses).map (·.status.state))]
          ++ (if st.state = SessionState.waiting ∧ truthyStr st.needsInput then
                [MonitorEvent.needsInput sid (st.needsInput.getD "")] else [])
          ++ (if st.state = SessionState.error then
                [MonitorEvent.errorEvent sid st.message] else [])
          ++ (if st.state = SessionState.done then
                [MonitorEvent.doneEvent sid] else [])
      else [] := rfl

/-- C4 (amended).  For every applied status update: a `status-change` event
fires exactly when the new state differs from the previously recorded one
(and carries that previous state); a `needs-input` event fires exactly when
additionally the new state is `waiting` with a truthy `needsInput`; the
`error` and `done` events fire exactly on a transition into that state, once
per transition.  In particular a parsed self-report file carrying
`state = working` for a session previously `idle` emits exactly the single
change event with `previousState = idle`. -/
theorem status_event_emission (m : Monitor) (sid : String) (st : SessionStatus)
    (now : Nat) :
    (countStatusChange (setStatus m sid st now).2 =
      if (mapFind? sid m.statuses).map (·.status.state) ≠ some st.state
        then 1 else 0) ∧
    ((setStatus m sid st now).2.head? =
      if (mapFind? sid m.statuses).map (·.status.state) ≠ some st.state
        then some (MonitorEvent.statusChange sid st
          ((mapFind? sid m.statuses).map (·.status.state)))
        else none) ∧
    (countNeedsInputEvents (setStatus m sid st now).2 =
      if (mapFind? sid m.statuses).map (·.status.state) ≠ some st.state
        then (if st.state = SessionState.waiting ∧ truthyStr st.needsInput
          then 1 else 0) else 0) ∧
    (countErrorEvents (setStatus m sid st now).2 =
      if (mapFind? sid m.statuses).map (·.status.state) ≠ some st.state
        then (if st.state = SessionState.error then 1 else 0) else 0) ∧
    (countDoneEvents (setStatus m sid st now).2 =
      if (mapFind? sid m.statuses).map (·.status.state) ≠ some st.state
        then (if st.state = SessionState.done then 1 else 0) else 0) ∧
    (∀ (e : StatusEntry) (data : StatusFileContent),
      mapFind? sid m.statuses = some e →
      e.status.state = SessionState.idle →
      data.state = SessionState.working →
      (handleFileChange m sid data now).2 =
        [MonitorEvent.statusChange sid
          { state := data.state, message := data.message,
            lastActivity := data.timestamp,
            needsInput := data.needsInputPrompt,
            progress := data.progress }
          (some SessionState.idle)]) := by
  refine ⟨?_, ?_, ?_, ?_, ?_, ?_⟩
  · rw [setStatus_events]
    unfold countStatusChange
    split_ifs <;> rfl
  · rw [setStatus_events]
    split_ifs <;> rfl
  · rw [setStatus_events]
    unfold countNeedsInputEvents
    split_ifs <;> rfl
  · rw [setStatus_events]
    unfold countErrorEvents
    split_ifs <;> rfl
  · rw [setStatus_events]
    unfold countDoneEvents
    split_ifs <;> rfl
  · intro e data he hidle hworking
    unfold handleFileChange
    rw [setStatus_events]
    rw [he]
    simp [hidle, hworking]

/-- Witness for `status_event_emission`: the spec scenario — a self-report
file with `state = working`, `message = compiling` for a session previously
`idle` emits exactly one change event with `previousState = idle`. -/
theorem status_event_emission_witness :
    (handleFileChange
      { statuses := [("s1",
          ⟨{ state := SessionState.idle, message := "Ready",
             lastActivity := 100, needsInput := none, progress := none }, 100⟩)],
        idleTimers := ["s1"] }
      "s1"
      { agentId := "s1", state := SessionState.working, message := "compiling",
        timestamp := 150, needsInputPrompt := none, progress := none }
      200).2 =
      [MonitorEvent.statusChange "s1"
        { state := SessionState.working, message := "compiling",
          lastActivity := 150, needsInput := none, progress := none }
        (some SessionState.idle)] :=
  (status_event_emission
    { statuses := [("s1",
        ⟨{ state := SessionState.idle, message := "Ready",
           lastActivity := 100, needsInput := none, progress := none }, 100⟩)],
      idleTimers := ["s1"] }
    "s1"
    { state := SessionState.working, message := "compiling",
      lastActivity := 150, needsInput := none, progress := none }
    200).2.2.2.2.2
    ⟨{ state := SessionState.idle, message := "Ready",
       lastActivity := 100, needsInput := none, progress := none }, 100⟩
    { agentId := "s1", state := SessionState.working, message := "compiling",
      timestamp := 150, needsInputPrompt := none, progress := none }
    (by decide) rfl rfl

/-- C5 counterexample.  The claim asserts that every field absent from the
partial keeps its current recorded value.  On the code only `state` and
`message` fall back to the current value; `needsInput` and `progress` are
copied from the partial as given, so an update that omits them clears them:
here the recorded `needsInput` prompt and `progress` are lost. -/
theorem update_status_merge_cex :
    getStatus
      (updateStatus
        { statuses := [("s1",
            ⟨{ state := SessionState.waiting, message := "Delete files?",
               lastActivity := 10, needsInput := some "Delete files? (y/n)",
               progress := some 50 }, 10⟩)],
          idleTimers := ["s1"] }
        "s1"
        { state := some SessionState.working, message := none,
          needsInput := none, progress := none } 20).1 "s1" =
      some { state := SessionState.working, message := "Delete files?",
             lastActivity := 20, needsInput := none, progress := none } := by
  decide

/-- C5 (amended).  For every registered session, `updateStatus` merges only
`state` and `message` with the current recorded value (each keeps its
current value when absent from the partial), stamps `lastActivity` with the
current time, and replaces `needsInput` and `progress` with exactly the
partial's values — clearing them when the partial omits them. -/
theorem update_status_merges (m : Monitor) (sid : String) (p : PartialStatus)
    (now : Nat) (e : StatusEntry) (h : mapFind? sid m.statuses = some e) :
    getStatus (updateStatus m sid p now).1 sid =
      some { state := p.state.getD e.status.state,
             message := p.message.getD e.status.message,
             lastActivity := now,
             needsInput := p.needsInput,
             progress := p.progress } := by
  unfold updateStatus
  rw [h]
  simp [setStatus, getStatus, resetIdleTimer_statuses, mapFind?_insert_self]

/-- Witness for `update_status_merges` at a concrete registered session: a
partial carrying only a message keeps the current state, and the stamp moves
to the update time. -/
theorem update_status_merges_witness :
    getStatus
      (updateStatus
        { statuses := [("s1",
            ⟨{ state := SessionState.working, message := "compiling",
               lastActivity := 10, needsInput := none, progress := some 10 }, 10⟩)],
          idleTimers := ["s1"] }
        "s1"
        { state := none, message := some "linking",
          needsInput := none, progress := some 90 } 42).1 "s1" =
      some { state := SessionState.working, message := "linking",
             lastActivity := 42, needsInput := none, progress := some 90 } :=
  update_status_merges
    { statuses := [("s1",
        ⟨{ state := SessionState.working, message := "compiling",
           lastActivity := 10, needsInput := none, progress := some 10 }, 10⟩)],
      idleTimers := ["s1"] }
    "s1"
    { state := none, message := some "linking",
      needsInput := none, progress := some 90 } 42
    ⟨{ state := SessionState.working, message := "compiling",
       lastActivity := 10, needsInput := none, progress := some 10 }, 10⟩
    (by decide)

/-- C10.  `updateStatus` on a session id that was never registered silently
creates a status entry: the stored state is the partial's state, defaulting
to `idle` when the partial carries none — the entry never passes through
`initializing`, as the single emitted event carries the merged status
directly with no previous state — afterwards `getStatus` is defined and an
idle timer is armed for the id. -/
theorem update_status_unregistered (m : Monitor) (sid : String)
    (p : PartialStatus) (now : Nat) (h : mapFind? sid m.statuses = none) :
    getStatus (updateStatus m sid p now).1 sid =
      some { state := p.state.getD SessionState.idle,
             message := p.message.getD "",
             lastActivity := now,
             needsInput := p.needsInput,
             progress := p.progress } ∧
    sid ∈ (updateStatus m sid p now).1.idleTimers ∧
    (updateStatus m sid p now).2.head? =
      some (MonitorEvent.statusChange sid
        { state := p.state.getD SessionState.idle,
          message := p.message.getD "",
          lastActivity := now,
          needsInput := p.needsInput,
          progress := p.progress } none) := by
  refine ⟨?_, ?_, ?_⟩
  · unfold updateStatus
    rw [h]
    simp [setStatus, getStatus, resetIdleTimer_statuses, mapFind?_insert_self]
  · unfold updateStatus
    rw [h]
    simp [setStatus, resetIdleTimer]
  · unfold updateStatus
    rw [setStatus_events]
    rw [h]
    simp

/-- Witness for `update_status_unregistered`: updating an untracked id on an
empty monitor with a state-free partial yields a defined `idle` status, an
armed idle timer, and a single change event with no previous state. -/
theorem update_status_unregistered_witness :
    getStatus
      (updateStatus { statuses := [], idleTimers := [] } "ghost"
        { state := none, message := some "hello",
          needsInput := none, progress := none } 7).1 "ghost" =
      some { state := SessionState.idle, message := "hello",
             lastActivity := 7, needsInput := none, progress := none } ∧
    "ghost" ∈ (updateStatus { statuses := [], idleTimers := [] } "ghost"
        { state := none, message := some "hello",
          needsInput := none, progress := none } 7).1.idleTimers :=
  ⟨(update_status_unregistered { statuses := [], idleTimers := [] } "ghost"
      { state := none, message := some "hello",
        needsInput := none, progress := none } 7 (by decide)).1,
    (update_status_unregistered { statuses := [], idleTimers := [] } "ghost"
      { state := none, message := some "hello",
        needsInput := none, progress := none } 7 (by decide)).2.1⟩

/-- C6.  `cleanup(activeSessionIds)` removes exactly the managed workspace
directories whose session id is not active (whether the clean removal
succeeds or every removal in `failIds` falls back to force-delete plus
prune), returns exactly those ids in directory order, leaves every
non-directory entry and every active workspace untouched, and issues one
prune per fallback removal. -/
theorem worktree_cleanup_exact (failIds active : List String)
    (entries : List DirEntry) :
    (worktreeCleanup failIds active entries).1 =
      (entries.filter (fun e => e.isDir ∧ e.name ∉ active)).map (·.name) ∧
    (worktreeCleanup failIds active entries).2.1 =
      entries.filter (fun e => ¬ e.isDir ∨ e.name ∈ active) ∧
    (worktreeCleanup failIds active entries).2.2 =
      (entries.filter (fun e => e.isDir ∧ e.name ∉ active ∧ e.name ∈ failIds)).length := by
  induction entries with
  | nil => exact ⟨rfl, rfl, rfl⟩
  | cons e rest ih =>
    obtain ⟨ih1, ih2, ih3⟩ := ih
    by_cases hd : e.isDir = true
    · by_cases ha : e.name ∈ active
      · refine ⟨?_, ?_, ?_⟩ <;>
          simp [worktreeCleanup, hd, ha, ih1, ih2, ih3]
      · by_cases hf : e.name ∈ failIds <;>
          refine ⟨?_, ?_, ?_⟩ <;>
          · simp [worktreeCleanup, hd, ha, hf, ih1, ih2, ih3]
            try omega
    · have hd' : e.isDir = false := by
        cases hb : e.isDir
        · rfl
        · exact absurd hb hd
      refine ⟨?_, ?_, ?_⟩ <;>
        simp [worktreeCleanup, hd', ih1, ih2, ih3]

/-- C7.  `create(sessionId, branch)` fails when a workspace directory
already exists at the target path; otherwise it returns the isolated
worktree path, checking the branch out when it exists locally or as a known
`remotes/origin` name, and creating the branch from the current head when it
does not — the call does not fail for a non-existent branch. -/
theorem worktree_create_spec (w : WorktreeManager) (g : GitState)
    (sid branch : String) :
    (sid ∈ g.worktreeDirs →
      worktreeCreate w g sid branch =
        Except.error (WtError.worktreeExists (getWorktreePath w sid))) ∧
    (sid ∉ g.worktreeDirs →
      (branch ∈ g.branchesAll ∨ ("remotes/origin/" ++ branch) ∈ g.branchesAll) →
      worktreeCreate w g sid branch =
        Except.ok ({ g with worktreeDirs := g.worktreeDirs ++ [sid] },
          getWorktreePath w sid, GitAction.checkoutExisting)) ∧
    (sid ∉ g.worktreeDirs →
      ¬ (branch ∈ g.branchesAll ∨ ("remotes/origin/" ++ branch) ∈ g.branchesAll) →
      worktreeCreate w g sid branch =
        Except.ok ({ branchesAll := g.branchesAll ++ [branch],
                     worktreeDirs := g.worktreeDirs ++ [sid] },
          getWorktreePath w sid, GitAction.branchCreatedFromHead)) := by
  refine ⟨fun hin => ?_, fun hout hex => ?_, fun hout hex => ?_⟩
  · simp [worktreeCreate, hin]
  · simp [worktreeCreate, hout, hex]
  · simp only [worktreeCreate, if_neg hout]
    simp [hex]

/-- Witness for `worktree_create_spec`: creating a session workspace for the
non-existent branch `feature/x` creates the branch from the current head and
returns the isolated path instead of failing. -/
theorem worktree_create_spec_witness :
    worktreeCreate
      { baseDir := "/root/.orcha/worktrees", repoPath := "/repo/app" }
      { branchesAll := ["main"], worktreeDirs := [] } "s1" "feature/x" =
      Except.ok ({ branchesAll := ["main", "feature/x"],
                   worktreeDirs := ["s1"] },
        getWorktreePath
          { baseDir := "/root/.orcha/worktrees", repoPath := "/repo/app" } "s1",
        GitAction.branchCreatedFromHead) :=
  (worktree_create_spec
      { baseDir := "/root/.orcha/worktrees", repoPath := "/repo/app" }
      { branchesAll := ["main"], worktreeDirs := [] } "s1" "feature/x").2.2
    (by decide) (by decide)

theorem registerInstance_fresh (p : String) (c pid now : Nat) :
    registerInstance [] p c pid now =
      ([(generateInstanceId p,
          { instanceId := generateInstanceId p, repoPath := p,
            tmuxSession := generateInstanceId p, pid := pid,
            startedAt := now, sessionCount := c })],
        { instanceId := generateInstanceId p, repoPath := p,
          tmuxSession := generateInstanceId p, pid := pid,
          startedAt := now, sessionCount := c }) := by
  simp [registerInstance, mapFind?, mapInsert]

theorem registerInstance_collide (reg : List (String × InstanceInfo))
    (p : String) (c pid now : Nat) (e : InstanceInfo)
    (h : mapFind? (generateInstanceId p) reg = some e)
    (hne : e.repoPath ≠ p) :
    registerInstance reg p c pid now =
      (mapInsert (generateInstanceIdWithHash p)
        { instanceId := generateInstanceIdWithHash p, repoPath := p,
          tmuxSession := generateInstanceIdWithHash p, pid := pid,
          startedAt := now, sessionCount := c } reg,
       { instanceId := generateInstanceIdWithHash p, repoPath := p,
         tmuxSession := generateInstanceIdWithHash p, pid := pid,
         startedAt := now, sessionCount := c }) := by
  simp [registerInstance, h, hne]

theorem generateInstanceIdWithHash_ne (p : String) :
    generateInstanceIdWithHash p ≠ generateInstanceId p := by
  intro h
  have hlen := congrArg String.length h
  rw [generateInstanceIdWithHash] at hlen
  rw [String.length_append, String.length_append] at hlen
  have hpos : 0 < ("-" : String).length + (toString (pathContentHash p)).length := by
    have : ("-" : String).length = 1 := rfl
    omega
  omega

/-- C8.  Registering two different absolute repository paths whose derived
base instance id collides yields two distinct, coexisting registry entries:
the first stays stored under the base id, and the second registration
detects the path mismatch and stores its entry under the deterministic
hash-suffixed id, which differs from the base id. -/
theorem register_instance_collision (p1 p2 : String)
    (c1 c2 pid1 pid2 t1 t2 : Nat)
    (hne : p1 ≠ p2) (hcol : generateInstanceId p1 = generateInstanceId p2) :
    mapFind? (generateInstanceId p1)
        (registerInstance
          (registerInstance [] p1 c1 pid1 t1).1 p2 c2 pid2 t2).1 =
      some { instanceId := generateInstanceId p1, repoPath := p1,
             tmuxSession := generateInstanceId p1, pid := pid1,
             startedAt := t1, sessionCount := c1 } ∧
    mapFind? (generateInstanceIdWithHash p2)
        (registerInstance
          (registerInstance [] p1 c1 pid1 t1).1 p2 c2 pid2 t2).1 =
      some { instanceId := generateInstanceIdWithHash p2, repoPath := p2,
             tmuxSession := generateInstanceIdWithHash p2, pid := pid2,
             startedAt := t2, sessionCount := c2 } ∧
    generateInstanceIdWithHash p2 ≠ generateInstanceId p1 := by
  have hfirst : (registerInstance [] p1 c1 pid1 t1).1 =
      [(generateInstanceId p1,
        { instanceId := generateInstanceId p1, repoPath := p1,
          tmuxSession := generateInstanceId p1, pid := pid1,
          startedAt := t1, sessionCount := c1 })] :=
    congrArg Prod.fst (registerInstance_fresh p1 c1 pid1 t1)
  have hdiff : generateInstanceIdWithHash p2 ≠ generateInstanceId p1 := by
    rw [hcol]
    exact generateInstanceIdWithHash_ne p2
  have hlook : mapFind? (generateInstanceId p2)
      [(generateInstanceId p1,
        ({ instanceId := generateInstanceId p1, repoPath := p1,
           tmuxSession := generateInstanceId p1, pid := pid1,
           startedAt := t1, sessionCount := c1 } : InstanceInfo))] =
      some { instanceId := generateInstanceId p1, repoPath := p1,
             tmuxSession := generateInstanceId p1, pid := pid1,
             startedAt := t1, sessionCount := c1 } := by
    rw [← hcol]
    simp [mapFind?]
  have hsecond := registerInstance_collide _ p2 c2 pid2 t2 _ hlook hne
  refine ⟨?_, ?_, hdiff⟩
  · rw [hfirst, congrArg Prod.fst hsecond]
    rw [mapFind?_insert_ne _ _ hdiff]
    simp [mapFind?]
  · rw [hfirst, congrArg Prod.fst hsecond]
    rw [mapFind?_insert_self]

/-- Witness for `register_instance_collision`: two repositories named
`myrepo` under different parents collide on the base id and end up as two
coexisting entries, the second under the hash-suffixed id. -/
theorem register_instance_collision_witness :
    mapFind? (generateInstanceId "/home/alice/myrepo")
        (registerInstance
          (registerInstance [] "/home/alice/myrepo" 3 41 100).1
          "/data/myrepo" 2 42 200).1 =
      some { instanceId := generateInstanceId "/home/alice/myrepo",
             repoPath := "/home/alice/myrepo",
             tmuxSession := generateInstanceId "/home/alice/myrepo",
             pid := 41, startedAt := 100, sessionCount := 3 } ∧
    mapFind? (generateInstanceIdWithHash "/data/myrepo")
        (registerInstance
          (registerInstance [] "/home/alice/myrepo" 3 41 100).1
          "/data/myrepo" 2 42 200).1 =
      some { instanceId := generateInstanceIdWithHash "/data/myrepo",
             repoPath := "/data/myrepo",
             tmuxSession := generateInstanceIdWithHash "/data/myrepo",
             pid := 42, startedAt := 200, sessionCount := 2 } ∧
    generateInstanceIdWithHash "/data/myrepo" ≠
      generateInstanceId "/home/alice/myrepo" :=
  register_instance_collision "/home/alice/myrepo" "/data/myrepo" 3 2 41 42 100 200
    (by decide) (by decide)

/-- C9.  `kill(sessionId, signal)` returns whether a live process was found
and signalled, and a signal failure on an already-dead process is treated as
success-equivalent: the call resolves normally with `false` instead of
raising, for every registry, session and signal outcome. -/
theorem process_kill_never_rejects (procs : List (String × ProcessEntry))
    (sessionId : String) (outcome : SignalOutcome) :
    processKill procs sessionId outcome =
      Except.ok ((mapFind? sessionId procs).any (fun e => ¬ e.exited) &&
        outcome = SignalOutcome.delivered) := by
  unfold processKill
  cases hf : mapFind? sessionId procs with
  | none => simp
  | some entry =>
    by_cases hx : entry.exited = true
    · simp [hx]
    · cases outcome with
      | delivered => simp [hx]
      | failed reason => simp [hx]

theorem createSession_worktree_fail (s : SMState) (cfg : SessionConfig)
    (env : CreateEnv) (id br : String) (e : OrchaError)
    (hb : cfg.branch = some br) (hwo : env.worktreeOutcome = Except.error e)
    (hproc : mapFind? id s.procs = none) (hwdir : id ∉ s.worktreeDirs) :
    (createSession s cfg env id).2 = Except.error e ∧
    mapFind? id (createSession s cfg env id).1.sessions = none ∧
    id ∉ (createSession s cfg env id).1.worktreeDirs ∧
    mapFind? id (createSession s cfg env id).1.procs = none ∧
    getStatus (createSession s cfg env id).1.monitor id = none := by
  simp only [createSession]
  rw [hb, hwo]
  dsimp only
  unfold destroySession
  dsimp only
  rw [mapFind?_insert_self]
  refine ⟨rfl, ?_, ?_, ?_, ?_⟩
  · exact mapFind?_erase_self id _
  · simpa using hwdir
  · simp only [killProcessTree]
    rw [hproc]
    exact hproc
  · simp [unregisterSession, getStatus, mapFind?_erase_self]

theorem createSession_spawn_fail_branch (s : SMState) (cfg : SessionConfig)
    (env : CreateEnv) (id br : String)
    (hb : cfg.branch = some br) (hwo : env.worktreeOutcome = Except.ok ())
    (hsp : env.spawnOk = false)
    (hproc : mapFind? id s.procs = none) :
    (createSession s cfg env id).2 = Except.error (OrchaError.spawnFailed id) ∧
    mapFind? id (createSession s cfg env id).1.sessions = none ∧
    id ∉ (createSession s cfg env id).1.worktreeDirs ∧
    mapFind? id (createSession s cfg env id).1.procs = none ∧
    getStatus (createSession s cfg env id).1.monitor id = none := by
  simp only [createSession]
  rw [hb, hwo]
  dsimp only
  unfold createSpawn
  dsimp only
  rw [hproc, hsp]
  simp only [Option.any_none, Bool.false_eq_true, if_false, Bool.not_false, if_true]
  unfold destroySession
  dsimp only
  rw [mapFind?_insert_self]
  refine ⟨rfl, ?_, ?_, ?_, ?_⟩
  · exact mapFind?_erase_self id _
  · simp
  · simp only [killProcessTree]
    rw [hproc]
    exact hproc
  · simp [unregisterSession, getStatus, mapFind?_erase_self]

theorem createSession_spawn_fail_nobranch (s : SMState) (cfg : SessionConfig)
    (env : CreateEnv) (id : String)
    (hb : cfg.branch = none) (hsp : env.spawnOk = false)
    (hproc : mapFind? id s.procs = none) (hwdir : id ∉ s.worktreeDirs) :
    (createSession s cfg env id).2 = Except.error (OrchaError.spawnFailed id) ∧
    mapFind? id (createSession s cfg env id).1.sessions = none ∧
    id ∉ (createSession s cfg env id).1.worktreeDirs ∧
    mapFind? id (createSession s cfg env id).1.procs = none ∧
    getStatus (createSession s cfg env id).1.monitor id = none := by
  simp only [createSession]
  rw [hb]
  dsimp only
  unfold createSpawn
  dsimp only
  rw [hproc, hsp]
  simp only [Option.any_none, Bool.false_eq_true, if_false, Bool.not_false, if_true]
  unfold destroySession
  dsimp only
  rw [mapFind?_insert_self]
  refine ⟨rfl, ?_, ?_, ?_, ?_⟩
  · exact mapFind?_erase_self id _
  · simpa using hwdir
  · simp only [killProcessTree]
    rw [hproc]
    exact hproc
  · simp [unregisterSession, getStatus, mapFind?_erase_self]

/-- C1 (amended).  When `createSession` fails after the session was
registered — the worktree creation throws, or the spawn does — the manager
rolls the partial session back completely: the id is absent from the session
map, no worktree directory for it remains, no process entry for it remains,
and the status monitor no longer tracks it; the call fails by rethrowing the
raw underlying error unchanged (there is no `SessionCreationError` wrapper in
the sources). -/
theorem create_session_rollback (s : SMState) (cfg : SessionConfig)
    (env : CreateEnv) (id : String)
    (hproc : mapFind? id s.procs = none) (hwdir : id ∉ s.worktreeDirs)
    (hfail : (∃ e, cfg.branch.isSome ∧ env.worktreeOutcome = Except.error e) ∨
      env.spawnOk = false) :
    ((∃ br e, cfg.branch = some br ∧ env.worktreeOutcome = Except.error e ∧
        (createSession s cfg env id).2 = Except.error e) ∨
      (createSession s cfg env id).2 =
        Except.error (OrchaError.spawnFailed id)) ∧
    mapFind? id (createSession s cfg env id).1.sessions = none ∧
    id ∉ (createSession s cfg env id).1.worktreeDirs ∧
    mapFind? id (createSession s cfg env id).1.procs = none ∧
    getStatus (createSession s cfg env id).1.monitor id = none := by
  cases hb : cfg.branch with
  | some br =>
    cases hwo : env.worktreeOutcome with
    | error e =>
      obtain ⟨h1, h2, h3, h4, h5⟩ :=
        createSession_worktree_fail s cfg env id br e hb hwo hproc hwdir
      exact ⟨Or.inl ⟨br, e, rfl, rfl, h1⟩, h2, h3, h4, h5⟩
    | ok u =>
      have hsp : env.spawnOk = false := by
        rcases hfail with ⟨e, _, hw⟩ | hsp
        · rw [hwo] at hw
          exact absurd hw (by simp)
        · exact hsp
      obtain ⟨h1, h2, h3, h4, h5⟩ :=
        createSession_spawn_fail_branch s cfg env id br hb (by rw [hwo]) hsp
          hproc
      exact ⟨Or.inr h1, h2, h3, h4, h5⟩
  | none =>
    have hsp : env.spawnOk = false := by
      rcases hfail with ⟨e, hb2, _⟩ | hsp
      · rw [hb] at hb2
        exact absurd hb2 (by simp)
      · exact hsp
    obtain ⟨h1, h2, h3, h4, h5⟩ :=
      createSession_spawn_fail_nobranch s cfg env id hb hsp hproc hwdir
    exact ⟨Or.inr h1, h2, h3, h4, h5⟩

/-- C1 counterexample.  The claim has the failing call surface a
`SessionCreationError` carrying the underlying cause; the source has no such
class — the catch block runs the rollback and rethrows the raw error, so a
worktree failure surfaces as the git error itself, which is not a
`SessionCreationError`. -/
theorem session_creation_error_cex :
    (createSession
      { sessions := [], nextDisplayId := 1,
        worktrees := { baseDir := "/root/.orcha/worktrees",
                       repoPath := "/repo/app" },
        worktreeDirs := [], procs := [],
        monitor := { statuses := [], idleTimers := [] } }
      { branch := some "feature/x", mode := some SessionMode.claude,
        workingDirectory := "/repo/app", repoPath := "/repo/app" }
      { worktreeOutcome :=
          Except.error (OrchaError.gitError "fatal: not a git repository"),
        spawnOk := true, pid := 1234, now := 5, shellEnv := none }
      "s1").2 =
      Except.error (OrchaError.gitError "fatal: not a git repository") ∧
    isSessionCreationError
      (OrchaError.gitError "fatal: not a git repository") = false :=
  ⟨rfl, rfl⟩

/-- Witness for `create_session_rollback`: after a failing worktree creation
at a concrete fresh state, the session, its worktree directory, its process
entry and its monitor entry are all gone. -/
theorem create_session_rollback_witness :
    mapFind? "s1" (createSession
      { sessions := [], nextDisplayId := 1,
        worktrees := { baseDir := "/root/.orcha/worktrees",
                       repoPath := "/repo/app" },
        worktreeDirs := [], procs := [],
        monitor := { statuses := [], idleTimers := [] } }
      { branch := some "feature/x", mode := some SessionMode.claude,
        workingDirectory := "/repo/app", repoPath := "/repo/app" }
      { worktreeOutcome :=
          Except.error (OrchaError.gitError "fatal: not a git repository"),
        spawnOk := true, pid := 1234, now := 5, shellEnv := none }
      "s1").1.sessions = none ∧
    getStatus (createSession
      { sessions := [], nextDisplayId := 1,
        worktrees := { baseDir := "/root/.orcha/worktrees",
                       repoPath := "/repo/app" },
        worktreeDirs := [], procs := [],
        monitor := { statuses := [], idleTimers := [] } }
      { branch := some "feature/x", mode := some SessionMode.claude,
        workingDirectory := "/repo/app", repoPath := "/repo/app" }
      { worktreeOutcome :=
          Except.error (OrchaError.gitError "fatal: not a git repository"),
        spawnOk := true, pid := 1234, now := 5, shellEnv := none }
      "s1").1.monitor "s1" = none := by
  have h := create_session_rollback
    { sessions := [], nextDisplayId := 1,
      worktrees := { baseDir := "/root/.orcha/worktrees",
                     repoPath := "/repo/app" },
      worktreeDirs := [], procs := [],
      monitor := { statuses := [], idleTimers := [] } }
    { branch := some "feature/x", mode := some SessionMode.claude,
      workingDirectory := "/repo/app", repoPath := "/repo/app" }
    { worktreeOutcome :=
        Except.error (OrchaError.gitError "fatal: not a git repository"),
      spawnOk := true, pid := 1234, now := 5, shellEnv := none }
    "s1" rfl (by simp)
    (Or.inl ⟨OrchaError.gitError "fatal: not a git repository", rfl, rfl⟩)
  exact ⟨h.2.1, h.2.2.2.2⟩

theorem statusFallbackGo_preserves (detect : Nat → Option DetectedStatus)
    (now : Nat) :
    ∀ (l : List (String × SessionStatus)) (i j : Nat) (sid : String)
      (st : SessionStatus),
      l.get? j = some (sid, st) →
      st.state ≠ SessionState.idle →
      st.state ≠ SessionState.initializing →
      (statusFallbackGo detect now i l).get? j = some (sid, st)
  | [], _, j, _, _, h, _, _ => by simp at h
  | (sid₀, st₀) :: rest, i, 0, sid, st, h, h1, h2 => by
    simp only [List.get?] at h
    injection h with h
    cases h
    simp only [statusFallbackGo, List.get?]
    rw [if_neg (by simp [h1, h2])]
  | (sid₀, st₀) :: rest, i, j + 1, sid, st, h, h1, h2 => by
    simp only [List.get?] at h
    simp only [statusFallbackGo, List.get?]
    exact statusFallbackGo_preserves detect now rest (i + 1) j sid st h h1 h2

theorem watchRefreshGo_get (detect : Nat → Option DetectedStatus) (now : Nat) :
    ∀ (l : List (String × SessionStatus)) (i j : Nat) (sid : String)
      (st : SessionStatus),
      l.get? j = some (sid, st) →
      (watchRefreshGo detect now i l).get? j =
        some (sid, match detect (i + j) with
          | some d => overrideFromDetection d st now
          | none => st)
  | [], _, j, _, _, h => by simp at h
  | (sid₀, st₀) :: rest, i, 0, sid, st, h => by
    simp only [List.get?] at h
    injection h with h
    cases h
    simp only [watchRefreshGo, List.get?, Nat.add_zero]
  | (sid₀, st₀) :: rest, i, j + 1, sid, st, h => by
    simp only [List.get?] at h
    simp only [watchRefreshGo, List.get?]
    have hrec := watchRefreshGo_get detect now rest (i + 1) j sid st h
    rw [hrec]
    have harith : i + 1 + j = i + (j + 1) := by omega
    rw [harith]

/-- C3 counterexample.  The claim says the heuristic classifier never
overrides a recorded `working` or `waiting` state.  That holds for the
one-shot `orcha status` path, but the watch-mode `refreshDisplay` loop
applies any detection unconditionally: here a session recorded as `working`
is overwritten by a `waiting` pane classification. -/
theorem heuristic_override_working_cex :
    watchRefresh
      (fun _ => some { state := SessionState.waiting, message := "At prompt" })
      99
      [("s1", { state := SessionState.working, message := "compiling",
                lastActivity := 50, needsInput := none, progress := none })] =
      [("s1", { state := SessionState.waiting, message := "At prompt",
                lastActivity := 99, needsInput := none, progress := none })] :=
  rfl

/-- C3 (amended).  In the one-shot `orcha status` path the heuristic
classifier overwrites a recorded status only when the recorded state is
`idle` or `initializing` — a `working` or `waiting` (or terminal) entry is
returned untouched; the watch-mode refresh, however, overwrites every entry
for which the detector returns a classification, regardless of the recorded
state. -/
theorem heuristic_gating (detect : Nat → Option DetectedStatus) (now : Nat)
    (statuses : List (String × SessionStatus)) (j : Nat) (sid : String)
    (st : SessionStatus) (h : statuses.get? j = some (sid, st)) :
    (st.state ≠ SessionState.idle → st.state ≠ SessionState.initializing →
      (statusFallback detect now statuses).get? j = some (sid, st)) ∧
    ((watchRefresh detect now statuses).get? j =
      some (sid, match detect j with
        | some d => overrideFromDetection d st now
        | none => st)) := by
  constructor
  · intro h1 h2
    exact statusFallbackGo_preserves detect now statuses 0 j sid st h h1 h2
  · have := watchRefreshGo_get detect now statuses 0 j sid st h
    simpa [watchRefresh] using this

/-- Witness for `heuristic_gating`: with a detector always classifying
`waiting`, the one-shot path leaves a `working` session untouched while the
watch-mode refresh overwrites it. -/
theorem heuristic_gating_witness :
    (statusFallback
      (fun _ => some { state := SessionState.waiting, message := "At prompt" })
      99
      [("s1", { state := SessionState.working, message := "compiling",
                lastActivity := 50, needsInput := none, progress := none })]).get? 0 =
      some ("s1", { state := SessionState.working, message := "compiling",
                    lastActivity := 50, needsInput := none, progress := none }) ∧
    (watchRefresh
      (fun _ => some { state := SessionState.waiting, message := "At prompt" })
      99
      [("s1", { state := SessionState.working, message := "compiling",
                lastActivity := 50, needsInput := none, progress := none })]).get? 0 =
      some ("s1", { state := SessionState.waiting, message := "At prompt",
                    lastActivity := 99, needsInput := none, progress := none }) := by
  have h := heuristic_gating
    (fun _ => some { state := SessionState.waiting, message := "At prompt" })
    99
    [("s1", { state := SessionState.working, message := "compiling",
              lastActivity := 50, needsInput := none, progress := none })]
    0 "s1"
    { state := SessionState.working, message := "compiling",
      lastActivity := 50, needsInput := none, progress := none }
    rfl
  exact ⟨h.1 (by decide) (by decide), h.2⟩

end Orcha
